import Mathlib

/-!
Verification of the container physical map component of libfsapfs.

The development embeds `libfsapfs_container_physical_map.c` shallowly:

* a byte buffer is a `List Nat` of byte values, and the little-endian field
  readers `le32` / `le64` mirror `byte_stream_copy_to_uint32_little_endian`
  and `byte_stream_copy_to_uint64_little_endian`;
* the in-memory physical map is its `entries_array`, a `List PhysicalMapEntry`
  (the `libcdata_array` of `libfsapfs_container_physical_map_entry_t`);
* `container_physical_map_read_data` models
  `libfsapfs_container_physical_map_read_data` as a state-passing function:
  it receives the entry collection before the call and returns the status
  together with the entry collection after the call (the C function appends
  decoded entries to `container_physical_map->entries_array` in place);
* `container_physical_map_get_physical_address_by_object_identifier` models
  the lookup as a state-passing function over the entry collection and the
  caller-supplied `*physical_address` location: it returns the C `int`
  result, the entry collection after the call and the value stored at the
  output location after the call.  The C loop writes `*physical_address`
  only on an exact match and never stores into the array or the entries.

The null-pointer argument paths of the C functions (`container_physical_map
== NULL`, `data == NULL`, `physical_address == NULL`), which return -1 with
an argument error, have no counterpart in the pure embedding: a Lean value
of the model types always exists.  Likewise the error paths of the
`libcdata_array` accessors (get number of entries / get entry by index
failing, or an entry slot holding NULL) cannot occur for a value-level list.
-/

namespace Fsapfs

/-- `SSIZE_MAX` on an LP64 platform: `2^63 - 1`.  The C code compares the
`size_t` argument `data_size` against it. -/
def SSIZE_MAX : Nat := 9223372036854775807

/-- The byte of `data` at index `i`; reads past the end give 0 (the size
checks of the decoders ensure the C code never performs such a read). -/
def byteAt (data : List Nat) (i : Nat) : Nat := data.getD i 0

/-- Little-endian 32-bit read at offset `o`
(`byte_stream_copy_to_uint32_little_endian`). -/
def le32 (data : List Nat) (o : Nat) : Nat :=
  byteAt data o + 256 * byteAt data (o + 1) + 65536 * byteAt data (o + 2) +
    16777216 * byteAt data (o + 3)

/-- Little-endian 64-bit read at offset `o`
(`byte_stream_copy_to_uint64_little_endian`). -/
def le64 (data : List Nat) (o : Nat) : Nat :=
  le32 data o + 4294967296 * le32 data (o + 4)

/-- The fields of `libfsapfs_container_physical_map_entry_t` that the map
functions under verification use: `object_identifier` and
`physical_address` (both `uint64_t`). -/
structure PhysicalMapEntry where
  object_identifier : Nat
  physical_address : Nat
deriving DecidableEq

/-- Error outcomes of the physical-map decoder.  One constructor per
`libcerror_error_set` site reached from
`libfsapfs_container_physical_map_read_data` on non-null arguments, named
after the spec's error taxonomy for that site:

* `truncated`: the `data_size < sizeof(fsapfs_container_physical_map_t)`
  (40) or `data_size > SSIZE_MAX` check (C error code
  `LIBCERROR_RUNTIME_ERROR_VALUE_OUT_OF_BOUNDS`);
* `unsupportedType`: `object_type != 0x4000000c`
  (`LIBCERROR_RUNTIME_ERROR_UNSUPPORTED_VALUE`);
* `outOfBounds`: `number_of_map_entries > 101`
  (`LIBCERROR_RUNTIME_ERROR_VALUE_OUT_OF_BOUNDS`);
* `entryTruncated`: `libfsapfs_container_physical_map_entry_read_data`
  failed on the remaining bytes (wrapped by the C code as
  `LIBCERROR_IO_ERROR_READ_FAILED`). -/
inductive PMError where
  | truncated
  | unsupportedType
  | outOfBounds
  | entryTruncated
deriving DecidableEq

/-- Status component of the decoder result: `ok` models the C return value 1
and `err e` models -1 with error `e`. -/
inductive DecodeStatus where
  | ok
  | err (e : PMError)
deriving DecidableEq

/-- Result of decoding one entry record. -/
inductive EntryResult where
  | ok (entry : PhysicalMapEntry)
  | err (e : PMError)
deriving DecidableEq

/-- Modelled from the spec: the source of
`libfsapfs_container_physical_map_entry_read_data` (file
`libfsapfs_container_physical_map_entry.c`) is not part of `src/`; only its
caller and its unit test are.  Per spec sections 4.2 and 6 an entry record
is one fixed-size 40-byte structure and a remaining buffer smaller than one
record is a fatal `Truncated` error; the unit test also rejects a
`data_size` above `SSIZE_MAX`, and accepts exactly 40 arbitrary bytes.
`object_identifier` and `physical_address` sit at the fixed sub-offsets 8
and 32, pinned by the concrete scenario of spec section 8: in the 40-byte
record `05 00 00 80 | 00 00 00 00 | 00 10 ... | ... | 09 00 ...` the
embedded object identifier is 0x1000 and the embedded physical address 9. -/
def container_physical_map_entry_read_data (data : List Nat) : EntryResult :=
  if data.length < 40 ∨ SSIZE_MAX < data.length then .err .entryTruncated
  else .ok { object_identifier := le64 data 8, physical_address := le64 data 32 }

/-- The entry-decoding loop of `libfsapfs_container_physical_map_read_data`
(lines 419-471): starting at `data_offset`, decode `n` more entry records
from `data.drop data_offset` (the C call passes `&(data[data_offset])` and
`data_size - data_offset`), appending each to the entry collection; on an
entry failure stop and return the error together with the collection as it
stands. -/
def read_data_entries (data : List Nat) :
    Nat → Nat → List PhysicalMapEntry → DecodeStatus × List PhysicalMapEntry
  | _, 0, entries => (.ok, entries)
  | data_offset, n + 1, entries =>
    match container_physical_map_entry_read_data (data.drop data_offset) with
    | .err e => (.err e, entries)
    | .ok entry => read_data_entries data (data_offset + 40) n (entries ++ [entry])

/-- The entry collection of a freshly initialized map: the C initializer
(lines 40-126) creates the map with an empty `entries_array`. -/
def container_physical_map_initial : List PhysicalMapEntry := []

/-- `libfsapfs_container_physical_map_read_data` (lines 263-482) as a
state-passing function on the entry collection: size check (40 is
`sizeof(fsapfs_container_physical_map_t)`), object-type check against
`0x4000000c`, entry-count ceiling 101, then the entry loop starting at
`data_offset = 40`.  The `number_of_entries` field is the little-endian
32-bit word at offset 36 and `object_type` the one at offset 24. -/
def container_physical_map_read_data (map : List PhysicalMapEntry)
    (data : List Nat) : DecodeStatus × List PhysicalMapEntry :=
  if data.length < 40 ∨ SSIZE_MAX < data.length then (.err .truncated, map)
  else if le32 data 24 ≠ 0x4000000c then (.err .unsupportedType, map)
  else if 101 < le32 data 36 then (.err .outOfBounds, map)
  else read_data_entries data 40 (le32 data 36) map

/-- The scan loop of
`libfsapfs_container_physical_map_get_physical_address_by_object_identifier`
(lines 534-574): walk the entries in order; on the first entry whose
`object_identifier` matches, store its `physical_address` into the output
location and return 1; past the end return 0 with the output location
untouched. -/
def get_physical_address_loop :
    List PhysicalMapEntry → Nat → Nat → Int × Nat
  | [], _, physical_address => (0, physical_address)
  | entry :: rest, object_identifier, physical_address =>
    if object_identifier = entry.object_identifier then
      (1, entry.physical_address)
    else get_physical_address_loop rest object_identifier physical_address

/-- `libfsapfs_container_physical_map_get_physical_address_by_object_identifier`
(lines 487-575) as a state-passing function: inputs are the entry
collection, the queried identifier and the value at the caller's
`*physical_address` location before the call; outputs are the C `int`
result, the entry collection after the call and the value at the output
location after the call.  The C body only reads the array (element count
and element access) and entry fields; its sole store is
`*physical_address = map_entry->physical_address` on a match, so the
collection component of the result is the input collection. -/
def container_physical_map_get_physical_address_by_object_identifier
    (map : List PhysicalMapEntry) (object_identifier : Nat)
    (physical_address : Nat) : Int × List PhysicalMapEntry × Nat :=
  let r := get_physical_address_loop map object_identifier physical_address
  (r.1, map, r.2)

/-- The entry decoded from `data` at byte offset `o`. -/
def entryAtOffset (data : List Nat) (o : Nat) : PhysicalMapEntry :=
  { object_identifier := le64 data (o + 8), physical_address := le64 data (o + 32) }

/-- The `i`-th entry record of a physical-map block: 40-byte records start
at offset 40. -/
def entryAt (data : List Nat) (i : Nat) : PhysicalMapEntry :=
  entryAtOffset data (40 + 40 * i)

/-! ### Test vectors

Concrete byte buffers used to instantiate the theorems.  A block header is
40 bytes: checksum (8), object identifier (8), object version (8),
object type (4, little-endian `0x4000000c` for a valid block), object
subtype (4), flags (4), number of entries (4).  An entry record is 40
bytes with its object identifier at sub-offset 8 and its physical address
at sub-offset 32. -/

/-- A well-formed 40-byte block header declaring `count` entries
(`count < 256`). -/
def blockHeader (count : Nat) : List Nat :=
  List.replicate 24 0 ++ [0x0c, 0x00, 0x00, 0x40] ++ List.replicate 8 0 ++
    [count, 0, 0, 0]

/-- A 40-byte entry record with the given object identifier and physical
address (both `< 256`). -/
def entryRecord (oid paddr : Nat) : List Nat :=
  List.replicate 8 0 ++ [oid, 0, 0, 0, 0, 0, 0, 0] ++ List.replicate 16 0 ++
    [paddr, 0, 0, 0, 0, 0, 0, 0]

/-- A valid block with two entries: (5 ↦ 9) and (7 ↦ 11). -/
def testBlockTwoEntries : List Nat :=
  blockHeader 2 ++ entryRecord 5 9 ++ entryRecord 7 11

/-- A block with two entries sharing object identifier 5: (5 ↦ 9) and
(5 ↦ 11). -/
def testBlockDupEntries : List Nat :=
  blockHeader 2 ++ entryRecord 5 9 ++ entryRecord 5 11

/-- A block declaring two entries but providing only one full entry record
and 20 further bytes (100 bytes in total). -/
def testBlockShortEntry : List Nat :=
  blockHeader 2 ++ entryRecord 5 9 ++ List.replicate 20 0

/-- 40 zero bytes: object type 0, not the physical-map tag. -/
def testBlockBadType : List Nat := List.replicate 40 0

/-- A block header declaring 200 entries (above the ceiling 101). -/
def testBlockBigCount : List Nat := blockHeader 200

/-- A valid block with zero entries. -/
def testBlockEmpty : List Nat := blockHeader 0

/-- A 39-byte buffer, one byte short of the fixed block header. -/
def testShortBuffer : List Nat := List.replicate 39 0

/-! ### Helper lemmas -/

theorem byteAt_drop (data : List Nat) (o i : Nat) :
    byteAt (data.drop o) i = byteAt data (o + i) := by
  simp [byteAt, List.getD, List.getElem?_drop]

theorem le32_drop (data : List Nat) (o k : Nat) :
    le32 (data.drop o) k = le32 data (o + k) := by
  simp [le32, byteAt_drop, Nat.add_assoc]

theorem le64_drop (data : List Nat) (o k : Nat) :
    le64 (data.drop o) k = le64 data (o + k) := by
  simp [le64, le32_drop, Nat.add_assoc]

/-- When at least one full record remains, decoding the entry at offset `o`
of `data` succeeds with the fields read at the fixed sub-offsets. -/
theorem entry_read_ok (data : List Nat) (o : Nat)
    (hlen : o + 40 ≤ data.length) (hmax : data.length ≤ SSIZE_MAX) :
    container_physical_map_entry_read_data (data.drop o)
      = .ok (entryAtOffset data o) := by
  have hdroplen : (data.drop o).length = data.length - o := List.length_drop o data
  rw [container_physical_map_entry_read_data, if_neg]
  · simp [entryAtOffset, le64_drop]
  · push_neg
    refine ⟨by omega, ?_⟩
    rw [hdroplen]
    exact Nat.le_trans (Nat.sub_le _ _) hmax

/-- Whenever an entry decode succeeds, the decoded entry is the record at
that offset. -/
theorem entry_read_ok_val (data : List Nat) (o : Nat) (entry : PhysicalMapEntry)
    (h : container_physical_map_entry_read_data (data.drop o) = .ok entry) :
    entry = entryAtOffset data o := by
  rw [container_physical_map_entry_read_data] at h
  split at h
  · exact absurd h (by simp)
  · have := EntryResult.ok.inj h
    rw [← this]
    simp [entryAtOffset, le64_drop]

/-- The only error an entry decode produces is `entryTruncated`. -/
theorem entry_read_err (data : List Nat) (e : PMError)
    (h : container_physical_map_entry_read_data data = .err e) :
    e = .entryTruncated := by
  rw [container_physical_map_entry_read_data] at h
  split at h
  · exact (EntryResult.err.inj h).symm
  · exact absurd h (by simp)

/-- List bookkeeping: appending the record at index `k` and then the
records at indices `k+1, …, k+n` appends the records at `k, …, k+n`. -/
theorem append_entry_range (data : List Nat) (k n : Nat)
    (acc : List PhysicalMapEntry) :
    (acc ++ [entryAt data k]) ++
        ((List.range n).map fun i => entryAt data (k + 1 + i))
      = acc ++ (List.range (n + 1)).map fun i => entryAt data (k + i) := by
  have hfun : ((fun i => entryAt data (k + i)) ∘ Nat.succ)
      = fun i => entryAt data (k + 1 + i) := by
    funext i
    have : k + Nat.succ i = k + 1 + i := by omega
    simp [Function.comp, this]
  rw [List.range_succ_eq_map, List.map_cons, List.map_map, hfun,
    List.append_assoc, List.singleton_append]
  simp

/-- One successful step of the entry loop. -/
theorem read_data_entries_step_ok (data : List Nat) (o n : Nat)
    (acc : List PhysicalMapEntry) (entry : PhysicalMapEntry)
    (h : container_physical_map_entry_read_data (data.drop o) = .ok entry) :
    read_data_entries data o (n + 1) acc
      = read_data_entries data (o + 40) n (acc ++ [entry]) := by
  rw [read_data_entries, h]

/-- The entry loop on a buffer long enough for all remaining records
succeeds and appends exactly those records. -/
theorem read_data_entries_ok (data : List Nat) (hmax : data.length ≤ SSIZE_MAX) :
    ∀ (n k : Nat) (acc : List PhysicalMapEntry),
      40 + 40 * (k + n) ≤ data.length →
      read_data_entries data (40 + 40 * k) n acc
        = (.ok, acc ++ (List.range n).map fun i => entryAt data (k + i))
  | 0, _, acc, _ => by simp [read_data_entries]
  | n + 1, k, acc, h => by
    have hk : (40 + 40 * k) + 40 ≤ data.length := by omega
    rw [read_data_entries_step_ok data (40 + 40 * k) n acc _
      (entry_read_ok data (40 + 40 * k) hk hmax)]
    rw [show (40 + 40 * k) + 40 = 40 + 40 * (k + 1) from by ring]
    rw [read_data_entries_ok data hmax n (k + 1)
      (acc ++ [entryAtOffset data (40 + 40 * k)]) (by omega)]
    rw [show entryAtOffset data (40 + 40 * k) = entryAt data k from rfl,
      append_entry_range]

/-- The entry loop either succeeds or fails with `entryTruncated`. -/
theorem read_data_entries_fst (data : List Nat) :
    ∀ (n o : Nat) (acc : List PhysicalMapEntry),
      (read_data_entries data o n acc).1 = .ok ∨
      (read_data_entries data o n acc).1 = .err .entryTruncated
  | 0, _, _ => Or.inl rfl
  | n + 1, o, acc => by
    cases hres : container_physical_map_entry_read_data (data.drop o) with
    | err e =>
      have he := entry_read_err _ _ hres
      subst he
      right
      rw [read_data_entries, hres]
    | ok entry =>
      rw [read_data_entries, hres]
      exact read_data_entries_fst data n (o + 40) (acc ++ [entry])

/-- Whatever happens, the entry loop leaves the collection equal to its
input followed by the first `m` records of the block, for some `m`. -/
theorem read_data_entries_snd (data : List Nat) :
    ∀ (n k : Nat) (acc : List PhysicalMapEntry),
      ∃ m, m ≤ n ∧ (read_data_entries data (40 + 40 * k) n acc).2
        = acc ++ (List.range m).map fun i => entryAt data (k + i)
  | 0, _, acc => ⟨0, Nat.le_refl 0, by simp [read_data_entries]⟩
  | n + 1, k, acc => by
    cases hres : container_physical_map_entry_read_data (data.drop (40 + 40 * k)) with
    | err e =>
      refine ⟨0, Nat.zero_le _, ?_⟩
      rw [read_data_entries, hres]
      simp
    | ok entry =>
      have hval := entry_read_ok_val data (40 + 40 * k) entry hres
      obtain ⟨m, hm, hsnd⟩ :=
        read_data_entries_snd data n (k + 1) (acc ++ [entry])
      refine ⟨m + 1, by omega, ?_⟩
      rw [read_data_entries_step_ok data (40 + 40 * k) n acc entry hres,
        show (40 + 40 * k) + 40 = 40 + 40 * (k + 1) from by ring, hsnd, hval,
        show entryAtOffset data (40 + 40 * k) = entryAt data k from rfl,
        append_entry_range]

/-- A scan over entries none of which carries the queried identifier
returns 0 and leaves the output value unchanged. -/
theorem get_loop_miss (oid out : Nat) :
    ∀ entries : List PhysicalMapEntry,
      (∀ e ∈ entries, e.object_identifier ≠ oid) →
      get_physical_address_loop entries oid out = (0, out)
  | [], _ => rfl
  | entry :: rest, h => by
    rw [get_physical_address_loop, if_neg, get_loop_miss oid out rest]
    · exact fun e he => h e (List.mem_cons_of_mem entry he)
    · exact fun heq => h entry (List.mem_cons_self entry rest) heq.symm

/-- Scanning the records `g k, g (k+1), …, g (k+n-1)` for the identifier of
`g (k+j)`, none of the earlier records matching, returns 1 with the
physical address of `g (k+j)`. -/
theorem get_loop_found (out : Nat) (g : Nat → PhysicalMapEntry) (oid : Nat) :
    ∀ (n j k : Nat), j < n → (g (k + j)).object_identifier = oid →
      (∀ i, i < j → (g (k + i)).object_identifier ≠ oid) →
      get_physical_address_loop ((List.range n).map fun i => g (k + i)) oid out
        = (1, (g (k + j)).physical_address)
  | 0, j, _, hj, _, _ => absurd hj (Nat.not_lt_zero j)
  | n + 1, j, k, hj, hhit, hmiss => by
    have hfun : ((fun i => g (k + i)) ∘ Nat.succ) = fun i => g (k + 1 + i) := by
      funext i
      have h1 : k + Nat.succ i = k + 1 + i := by omega
      simp [Function.comp, h1]
    have hlist : ((List.range (n + 1)).map fun i => g (k + i))
        = g k :: ((List.range n).map fun i => g (k + 1 + i)) := by
      rw [List.range_succ_eq_map, List.map_cons, List.map_map, hfun]
      simp
    rw [hlist]
    cases j with
    | zero =>
      rw [Nat.add_zero] at hhit
      rw [get_physical_address_loop, if_pos hhit.symm]
      rfl
    | succ j' =>
      have h0 : ¬(oid = (g k).object_identifier) := by
        have hm := hmiss 0 (Nat.succ_pos j')
        rw [Nat.add_zero] at hm
        exact fun heq => hm heq.symm
      rw [get_physical_address_loop, if_neg h0]
      rw [get_loop_found out g oid n j' (k + 1) (by omega)
        (by rw [show k + 1 + j' = k + (j' + 1) from by omega]; exact hhit)
        (fun i hi => by
          rw [show k + 1 + i = k + (i + 1) from by omega]
          exact hmiss (i + 1) (by omega))]
      rw [show k + 1 + j' = k + (j' + 1) from by omega]

/-- The scan loop writes the output value exactly on a hit: a result other
than 1 leaves it unchanged, and a result of 1 stores the physical address
of a matching entry. -/
theorem get_loop_out (oid out : Nat) :
    ∀ entries : List PhysicalMapEntry,
      ((get_physical_address_loop entries oid out).1 ≠ 1 →
        (get_physical_address_loop entries oid out).2 = out) ∧
      ((get_physical_address_loop entries oid out).1 = 1 →
        ∃ e ∈ entries, e.object_identifier = oid ∧
          (get_physical_address_loop entries oid out).2 = e.physical_address)
  | [] => ⟨fun _ => rfl, fun h => absurd h (by simp [get_physical_address_loop])⟩
  | entry :: rest => by
    by_cases hmatch : oid = entry.object_identifier
    · refine ⟨fun h => absurd ?_ h, fun _ => ?_⟩
      · rw [get_physical_address_loop, if_pos hmatch]
      · refine ⟨entry, List.mem_cons_self entry rest, hmatch.symm, ?_⟩
        rw [get_physical_address_loop, if_pos hmatch]
    · have hrec := get_loop_out oid out rest
      have hstep : get_physical_address_loop (entry :: rest) oid out
          = get_physical_address_loop rest oid out := by
        rw [get_physical_address_loop, if_neg hmatch]
      rw [hstep]
      exact ⟨hrec.1, fun h => by
        obtain ⟨e, he, hoid, hpa⟩ := hrec.2 h
        exact ⟨e, List.mem_cons_of_mem entry he, hoid, hpa⟩⟩

/-- Specialization of `get_loop_found` to a scan starting at record 0. -/
theorem get_loop_found_zero (out : Nat) (g : Nat → PhysicalMapEntry) (oid : Nat)
    (n j : Nat) (hj : j < n) (hhit : (g j).object_identifier = oid)
    (hmiss : ∀ i, i < j → (g i).object_identifier ≠ oid) :
    get_physical_address_loop ((List.range n).map g) oid out
      = (1, (g j).physical_address) := by
  have h := get_loop_found out g oid n j 0 hj (by simpa using hhit)
    (fun i hi => by simpa using hmiss i hi)
  simpa using h

/-- The full lookup in terms of its scan loop. -/
theorem get_full_eq (map : List PhysicalMapEntry) (oid out : Nat) (r : Int × Nat)
    (h : get_physical_address_loop map oid out = r) :
    container_physical_map_get_physical_address_by_object_identifier map oid out
      = (r.1, map, r.2) := by
  simp only [container_physical_map_get_physical_address_by_object_identifier]
  rw [h]

/-- Decoding a block that passes all header checks and has room for all its
declared records succeeds and appends exactly those records. -/
theorem read_data_ok (map : List PhysicalMapEntry) (data : List Nat) (N : Nat)
    (hN : N ≤ 101) (hlen : 40 + 40 * N ≤ data.length)
    (hmax : data.length ≤ SSIZE_MAX) (htype : le32 data 24 = 0x4000000c)
    (hcount : le32 data 36 = N) :
    container_physical_map_read_data map data
      = (.ok, map ++ (List.range N).map (entryAt data)) := by
  rw [container_physical_map_read_data,
    if_neg (by push_neg; exact ⟨by omega, hmax⟩),
    if_neg (fun hh => hh htype), if_neg (by omega), hcount]
  have h := read_data_entries_ok data hmax N 0 map (by omega)
  simpa using h

/-- A declared entry count above the ceiling is rejected before the loop,
leaving the collection untouched. -/
theorem read_data_count_err (map : List PhysicalMapEntry) (data : List Nat)
    (hlen : 40 ≤ data.length) (hmax : data.length ≤ SSIZE_MAX)
    (htype : le32 data 24 = 0x4000000c) (hcount : 101 < le32 data 36) :
    container_physical_map_read_data map data = (.err .outOfBounds, map) := by
  rw [container_physical_map_read_data,
    if_neg (by push_neg; exact ⟨hlen, hmax⟩),
    if_neg (fun hh => hh htype), if_pos hcount]

/-- Once the three header checks pass, the decoder either succeeds or fails
with `entryTruncated`. -/
theorem read_data_fst_cases (map : List PhysicalMapEntry) (data : List Nat)
    (hlen : 40 ≤ data.length) (hmax : data.length ≤ SSIZE_MAX)
    (htype : le32 data 24 = 0x4000000c) (hcount : le32 data 36 ≤ 101) :
    (container_physical_map_read_data map data).1 = .ok ∨
    (container_physical_map_read_data map data).1 = .err .entryTruncated := by
  rw [container_physical_map_read_data,
    if_neg (by push_neg; exact ⟨hlen, hmax⟩),
    if_neg (fun hh => hh htype), if_neg (by omega)]
  exact read_data_entries_fst data (le32 data 36) 40 map

/-! ### Claims -/

/-- C1: for every valid fixed-size physical-map block buffer containing
`N ≤ 101` well-formed entries with pairwise-distinct object identifiers,
decoding the buffer with `libfsapfs_container_physical_map_read_data`
succeeds, and a subsequent
`libfsapfs_container_physical_map_get_physical_address_by_object_identifier`
for each entry's `object_identifier` returns success (1) with exactly that
entry's `physical_address`. -/
theorem C1_round_trip (data : List Nat) (N j out : Nat)
    (hN : N ≤ 101) (hlen : 40 + 40 * N ≤ data.length)
    (hmax : data.length ≤ SSIZE_MAX) (htype : le32 data 24 = 0x4000000c)
    (hcount : le32 data 36 = N)
    (hdist : ∀ i1, i1 < N → ∀ i2, i2 < N → i1 ≠ i2 →
      (entryAt data i1).object_identifier ≠ (entryAt data i2).object_identifier)
    (hj : j < N) :
    container_physical_map_read_data container_physical_map_initial data
      = (.ok, (List.range N).map (entryAt data)) ∧
    container_physical_map_get_physical_address_by_object_identifier
      (container_physical_map_read_data container_physical_map_initial data).2
      (entryAt data j).object_identifier out
      = (1, (List.range N).map (entryAt data),
          (entryAt data j).physical_address) := by
  have hdec : container_physical_map_read_data container_physical_map_initial data
      = (.ok, (List.range N).map (entryAt data)) := by
    have h := read_data_ok container_physical_map_initial data N hN hlen hmax
      htype hcount
    simpa [container_physical_map_initial] using h
  refine ⟨hdec, ?_⟩
  rw [hdec]
  exact get_full_eq _ _ _ _
    (get_loop_found_zero out (entryAt data) (entryAt data j).object_identifier N j hj
      rfl (fun i hi => hdist i (by omega) j hj (by omega)))

/-- Witness for C1 on a concrete valid two-entry block mapping 5 ↦ 9 and
7 ↦ 11: decoding succeeds and looking up identifier 7 yields address 11. -/
theorem C1_round_trip_witness :
    container_physical_map_read_data container_physical_map_initial
        testBlockTwoEntries
      = (.ok, (List.range 2).map (entryAt testBlockTwoEntries)) ∧
    container_physical_map_get_physical_address_by_object_identifier
      (container_physical_map_read_data container_physical_map_initial
          testBlockTwoEntries).2
      (entryAt testBlockTwoEntries 1).object_identifier 0
      = (1, (List.range 2).map (entryAt testBlockTwoEntries),
          (entryAt testBlockTwoEntries 1).physical_address) :=
  C1_round_trip testBlockTwoEntries 2 1 0 (by decide) (by decide) (by decide)
    (by decide) (by decide) (by decide) (by decide)

/-- C2: for every buffer of sufficient size, the decoder fails with
`UnsupportedType` exactly when the little-endian 32-bit `object_type`
field at offset 24 differs from `0x4000000c`; with the correct tag the
type check passes. -/
theorem C2_object_type_check (map : List PhysicalMapEntry) (data : List Nat)
    (hlen : 40 ≤ data.length) (hmax : data.length ≤ SSIZE_MAX) :
    (container_physical_map_read_data map data).1 = .err .unsupportedType ↔
      le32 data 24 ≠ 0x4000000c := by
  constructor
  · intro h htype
    by_cases hcount : le32 data 36 ≤ 101
    · rcases read_data_fst_cases map data hlen hmax htype hcount with hres | hres <;>
        rw [hres] at h <;> simp at h
    · rw [read_data_count_err map data hlen hmax htype (by omega)] at h
      simp at h
  · intro htype
    rw [container_physical_map_read_data,
      if_neg (by push_neg; exact ⟨hlen, hmax⟩), if_pos htype]

/-- Witness for C2: 40 zero bytes carry object type 0 and are rejected as
an unsupported type. -/
theorem C2_object_type_check_witness :
    (container_physical_map_read_data container_physical_map_initial
        testBlockBadType).1 = .err .unsupportedType :=
  (C2_object_type_check container_physical_map_initial testBlockBadType
    (by decide) (by decide)).mpr (by decide)

/-- C3: with the correct object-type tag, a declared entry count above 101
is rejected with `OutOfBounds` before any entry is decoded (the entry
collection is unchanged), and a count of at most 101 passes the ceiling
check. -/
theorem C3_entry_count_ceiling (map : List PhysicalMapEntry) (data : List Nat)
    (hlen : 40 ≤ data.length) (hmax : data.length ≤ SSIZE_MAX)
    (htype : le32 data 24 = 0x4000000c) :
    (101 < le32 data 36 →
      container_physical_map_read_data map data = (.err .outOfBounds, map)) ∧
    (le32 data 36 ≤ 101 →
      (container_physical_map_read_data map data).1 ≠ .err .outOfBounds) := by
  refine ⟨fun hc => read_data_count_err map data hlen hmax htype hc,
    fun hc h => ?_⟩
  rcases read_data_fst_cases map data hlen hmax htype hc with hres | hres <;>
    rw [hres] at h <;> simp at h

/-- Witness for C3: a header declaring 200 entries is rejected with
`OutOfBounds` leaving the collection empty; a header declaring 0 entries
passes the ceiling check. -/
theorem C3_entry_count_ceiling_witness :
    container_physical_map_read_data container_physical_map_initial
        testBlockBigCount
      = (.err .outOfBounds, container_physical_map_initial) ∧
    (container_physical_map_read_data container_physical_map_initial
        testBlockEmpty).1 ≠ .err .outOfBounds :=
  ⟨(C3_entry_count_ceiling container_physical_map_initial testBlockBigCount
      (by decide) (by decide) (by decide)).1 (by decide),
   (C3_entry_count_ceiling container_physical_map_initial testBlockEmpty
      (by decide) (by decide) (by decide)).2 (by decide)⟩

/-- C4: every buffer shorter than 40 bytes is rejected with the size error
(`Truncated`), leaving the entry collection unchanged, and 40 bytes is the
threshold: no buffer of 40 or more bytes (within `SSIZE_MAX`) produces
that error. -/
theorem C4_short_buffer (map : List PhysicalMapEntry) (data : List Nat) :
    (data.length < 40 →
      container_physical_map_read_data map data = (.err .truncated, map)) ∧
    (40 ≤ data.length → data.length ≤ SSIZE_MAX →
      (container_physical_map_read_data map data).1 ≠ .err .truncated) := by
  constructor
  · intro hshort
    rw [container_physical_map_read_data, if_pos (Or.inl hshort)]
  · intro hlen hmax h
    rw [container_physical_map_read_data,
      if_neg (by push_neg; exact ⟨hlen, hmax⟩)] at h
    by_cases htype : le32 data 24 = 0x4000000c
    · rw [if_neg (fun hh => hh htype)] at h
      by_cases hcount : 101 < le32 data 36
      · rw [if_pos hcount] at h
        simp at h
      · rw [if_neg hcount] at h
        rcases read_data_entries_fst data (le32 data 36) 40 map with hres | hres <;>
          rw [hres] at h <;> simp at h
    · rw [if_pos htype] at h
      simp at h

/-- Witness for C4: a 39-byte buffer is rejected with the size error and
the collection is untouched; a valid 40-byte buffer is not. -/
theorem C4_short_buffer_witness :
    container_physical_map_read_data container_physical_map_initial
        testShortBuffer
      = (.err .truncated, container_physical_map_initial) ∧
    (container_physical_map_read_data container_physical_map_initial
        testBlockEmpty).1 ≠ .err .truncated :=
  ⟨(C4_short_buffer container_physical_map_initial testShortBuffer).1 (by decide),
   (C4_short_buffer container_physical_map_initial testBlockEmpty).2
      (by decide) (by decide)⟩

/-- C5: looking up an object identifier carried by no entry of the map
returns the distinct no-such-value result 0 (not an error -1), leaving the
entry collection and the output location unchanged. -/
theorem C5_lookup_miss (map : List PhysicalMapEntry) (oid out : Nat)
    (hmiss : ∀ e ∈ map, e.object_identifier ≠ oid) :
    container_physical_map_get_physical_address_by_object_identifier map oid out
      = (0, map, out) :=
  get_full_eq map oid out (0, out) (get_loop_miss oid out map hmiss)

/-- Witness for C5: identifier 7 is absent from the one-entry map 5 ↦ 9. -/
theorem C5_lookup_miss_witness :
    container_physical_map_get_physical_address_by_object_identifier
      [{ object_identifier := 5, physical_address := 9 }] 7 3
      = (0, [{ object_identifier := 5, physical_address := 9 }], 3) :=
  C5_lookup_miss [{ object_identifier := 5, physical_address := 9 }] 7 3 (by decide)

set_option maxRecDepth 4096 in
/-- C6 counterexample: a block whose two entries share object identifier 5
decodes successfully; the duplication is not reported as an error, refuting
the claim that decoding reports duplicate identifiers as corruption. -/
theorem C6_counterexample :
    (entryAt testBlockDupEntries 0).object_identifier
      = (entryAt testBlockDupEntries 1).object_identifier ∧
    (container_physical_map_read_data container_physical_map_initial
        testBlockDupEntries).1 = .ok := by
  decide

/-- C6 (amended): decoding a physical-map block that is otherwise valid but
contains two entries with the same `object_identifier` succeeds without any
error, retaining both entries in on-disk order; a subsequent lookup of the
duplicated identifier returns the `physical_address` of the earliest entry
carrying it, silently shadowing the later duplicate. -/
theorem C6_duplicates_not_reported (data : List Nat) (N i j out : Nat)
    (hN : N ≤ 101) (hlen : 40 + 40 * N ≤ data.length)
    (hmax : data.length ≤ SSIZE_MAX) (htype : le32 data 24 = 0x4000000c)
    (hcount : le32 data 36 = N) (hij : i < j) (hjN : j < N)
    (hdup : (entryAt data i).object_identifier
      = (entryAt data j).object_identifier)
    (hfirst : ∀ m, m < i →
      (entryAt data m).object_identifier ≠ (entryAt data i).object_identifier) :
    container_physical_map_read_data container_physical_map_initial data
      = (.ok, (List.range N).map (entryAt data)) ∧
    container_physical_map_get_physical_address_by_object_identifier
      (container_physical_map_read_data container_physical_map_initial data).2
      (entryAt data i).object_identifier out
      = (1, (List.range N).map (entryAt data),
          (entryAt data i).physical_address) := by
  have hdec : container_physical_map_read_data container_physical_map_initial data
      = (.ok, (List.range N).map (entryAt data)) := by
    have h := read_data_ok container_physical_map_initial data N hN hlen hmax
      htype hcount
    simpa [container_physical_map_initial] using h
  refine ⟨hdec, ?_⟩
  rw [hdec]
  exact get_full_eq _ _ _ _
    (get_loop_found_zero out (entryAt data) (entryAt data i).object_identifier N i
      (by omega) rfl hfirst)

/-- Witness for the amended C6 on the concrete duplicate block (5 ↦ 9 then
5 ↦ 11): decoding succeeds with both entries and the lookup of 5 returns 9,
the address of the first duplicate. -/
theorem C6_duplicates_not_reported_witness :
    container_physical_map_read_data container_physical_map_initial
        testBlockDupEntries
      = (.ok, (List.range 2).map (entryAt testBlockDupEntries)) ∧
    container_physical_map_get_physical_address_by_object_identifier
      (container_physical_map_read_data container_physical_map_initial
          testBlockDupEntries).2
      (entryAt testBlockDupEntries 0).object_identifier 0
      = (1, (List.range 2).map (entryAt testBlockDupEntries),
          (entryAt testBlockDupEntries 0).physical_address) :=
  C6_duplicates_not_reported testBlockDupEntries 2 0 1 0 (by decide) (by decide)
    (by decide) (by decide) (by decide) (by decide) (by decide) (by decide)
    (by decide)

/-- C7 counterexample: a block declaring two entries but holding only one
full record fails with the entry truncation error, yet the entry collection
is left holding the first decoded entry — not its pre-call (empty) state —
refuting the claim that a failed decode retains no subset of the block's
entries. -/
theorem C7_counterexample :
    container_physical_map_read_data container_physical_map_initial
        testBlockShortEntry
      = (.err .entryTruncated,
          [{ object_identifier := 5, physical_address := 9 }]) ∧
    container_physical_map_initial = ([] : List PhysicalMapEntry) := by
  decide

/-- C7 (amended): if the decoder fails while decoding the entry sequence it
returns a fatal error, and the map's entry collection then equals its
pre-call contents followed by the block's first `m` entry records for some
`m` — the entries decoded before the failure point remain appended (a
partial prefix is retained rather than the collection being rolled back). -/
theorem C7_partial_entries (map : List PhysicalMapEntry) (data : List Nat)
    (e : PMError)
    (herr : (container_physical_map_read_data map data).1 = .err e) :
    ∃ m, (container_physical_map_read_data map data).2
      = map ++ (List.range m).map (entryAt data) := by
  by_cases h1 : data.length < 40 ∨ SSIZE_MAX < data.length
  · refine ⟨0, ?_⟩
    rw [container_physical_map_read_data, if_pos h1]
    simp
  · by_cases h2 : le32 data 24 ≠ 0x4000000c
    · refine ⟨0, ?_⟩
      rw [container_physical_map_read_data, if_neg h1, if_pos h2]
      simp
    · by_cases h3 : 101 < le32 data 36
      · refine ⟨0, ?_⟩
        rw [container_physical_map_read_data, if_neg h1, if_neg h2, if_pos h3]
        simp
      · obtain ⟨m, _, hsnd⟩ := read_data_entries_snd data (le32 data 36) 0 map
        refine ⟨m, ?_⟩
        rw [container_physical_map_read_data, if_neg h1, if_neg h2, if_neg h3]
        simpa using hsnd

/-- Witness for the amended C7 on the concrete short block: the decode
fails with the entry truncation error and the resulting collection is the
pre-call contents plus a prefix of the block's records. -/
theorem C7_partial_entries_witness :
    (container_physical_map_read_data container_physical_map_initial
        testBlockShortEntry).1 = .err .entryTruncated ∧
    ∃ m, (container_physical_map_read_data container_physical_map_initial
        testBlockShortEntry).2
      = container_physical_map_initial ++
          (List.range m).map (entryAt testBlockShortEntry) :=
  ⟨by decide,
   C7_partial_entries container_physical_map_initial testBlockShortEntry
     .entryTruncated (by decide)⟩

/-- C8: decoding the same byte buffer twice, each time into a freshly
initialized map, yields structurally equal results — the same
success/failure status and element-for-element equal entry collections.
The embedded decoder is a pure function of the initial collection and the
buffer, mirroring that the C function reads nothing but its arguments (no
global or hidden mutable state). -/
theorem C8_decode_idempotent (data : List Nat) :
    (container_physical_map_read_data container_physical_map_initial data).1
      = (container_physical_map_read_data container_physical_map_initial data).1 ∧
    (container_physical_map_read_data container_physical_map_initial data).2
      = (container_physical_map_read_data container_physical_map_initial data).2 :=
  ⟨rfl, rfl⟩

/-- C9: a lookup leaves the map unchanged — the entry-collection component
of the call's post-state equals the collection passed in, whatever the
result.  This holds by construction of the embedding because the C body of
the lookup stores only into `*physical_address` and locals, never into the
array or an entry. -/
theorem C9_lookup_preserves_map (map : List PhysicalMapEntry)
    (object_identifier physical_address : Nat) :
    (container_physical_map_get_physical_address_by_object_identifier map
        object_identifier physical_address).2.1 = map := rfl

/-- C10: whenever the lookup does not return success, the caller-supplied
output location keeps its prior value; when it returns 1, the location
holds the `physical_address` of an entry of the map whose
`object_identifier` matches the query. -/
theorem C10_output_location (map : List PhysicalMapEntry) (oid out : Nat) :
    ((container_physical_map_get_physical_address_by_object_identifier
        map oid out).1 ≠ 1 →
      (container_physical_map_get_physical_address_by_object_identifier
        map oid out).2.2 = out) ∧
    ((container_physical_map_get_physical_address_by_object_identifier
        map oid out).1 = 1 →
      ∃ e ∈ map, e.object_identifier = oid ∧
        (container_physical_map_get_physical_address_by_object_identifier
          map oid out).2.2 = e.physical_address) := by
  have h := get_loop_out oid out map
  exact ⟨fun h1 => h.1 h1, fun h1 => h.2 h1⟩

/-- Witness for C10 on the one-entry map 5 ↦ 9: a miss (identifier 7)
leaves the output value 3 unchanged, and a hit (identifier 5) stores the
matching entry's physical address. -/
theorem C10_output_location_witness :
    (container_physical_map_get_physical_address_by_object_identifier
        [{ object_identifier := 5, physical_address := 9 }] 7 3).2.2 = 3 ∧
    ∃ e ∈ [({ object_identifier := 5, physical_address := 9 } : PhysicalMapEntry)],
      e.object_identifier = 5 ∧
      (container_physical_map_get_physical_address_by_object_identifier
        [{ object_identifier := 5, physical_address := 9 }] 5 3).2.2
        = e.physical_address :=
  ⟨(C10_output_location [{ object_identifier := 5, physical_address := 9 }] 7 3).1
      (by decide),
   (C10_output_location [{ object_identifier := 5, physical_address := 9 }] 5 3).2
      (by decide)⟩

end Fsapfs
